import Mathlib

/-!
Verification of the SafeChoice product-safety matching engine
(`app_streamlit.py`), shallowly embedded in Lean.

Python strings are modelled as Lean `String`; the Python string methods
used by the code (`str.strip`, `str.lower`, `str.split(",")`, the `in`
containment operator, truthiness) are modelled as structural recursions
on the underlying character list.  Python `dict.get(key, default)` on the
product dictionary is modelled with `Option` fields (`none` = key absent)
and `Option.getD`.  All field values in the modelled dictionaries are
strings, so the `except` branch of `check_product_safety` is unreachable
and the translation is total.
-/

namespace SafeChoice

/-- Model of Python `str.strip()`: drop leading and trailing whitespace. -/
def pyStrip (s : String) : String :=
  ⟨((s.data.dropWhile Char.isWhitespace).reverse.dropWhile Char.isWhitespace).reverse⟩

/-- Model of Python `str.lower()`: lower-case every character. -/
def pyLower (s : String) : String :=
  ⟨s.data.map Char.toLower⟩

/-- Auxiliary for `pySplitComma`: accumulates the current piece (reversed). -/
def splitCommaAux : List Char → List Char → List String
  | [], acc => [⟨acc.reverse⟩]
  | c :: cs, acc =>
    if c = ',' then ⟨acc.reverse⟩ :: splitCommaAux cs []
    else splitCommaAux cs (c :: acc)

/-- Model of Python `str.split(",")`. -/
def pySplitComma (s : String) : List String :=
  splitCommaAux s.data []

/-- Model of Python string truthiness: a string is truthy iff non-empty. -/
def pyTruthy (s : String) : Bool :=
  s != ""

/-- Tests whether `n` is an initial segment of `h` (auxiliary for `pyIn`). -/
def isPre : List Char → List Char → Bool
  | [], _ => true
  | _ :: _, [] => false
  | a :: as, b :: bs => a == b && isPre as bs

/-- Tests whether `n` occurs contiguously inside `h`. -/
def hasInfix (n : List Char) : List Char → Bool
  | [] => isPre n []
  | l@(_ :: t) => isPre n l || hasInfix n t

/-- Model of Python `needle in hay` on strings: contiguous substring test. -/
def pyIn (needle hay : String) : Bool :=
  hasInfix needle.data hay.data

/-- Model of Python `dict.get(key, default)`: `none` means the key is absent. -/
def pyGet (v : Option String) (default : String) : String :=
  v.getD default

/-- The user record fields read by the engine (`User` ORM class, lines 30-39):
`allergies` and `health_conditions` are comma-separated strings. -/
structure User where
  allergies : String
  health_conditions : String
deriving DecidableEq

/-- The product dictionary passed to `check_product_safety`
(as built by `get_product_from_openfoodfacts`, lines 113-120);
`none` models an absent key. -/
structure ProductDict where
  barcode : Option String
  title : Option String
  brand : Option String
  description : Option String
  ingredients : Option String
  category : Option String
deriving DecidableEq

/-- Python truthiness of the product dictionary: truthy iff non-empty. -/
def dictTruthy (p : ProductDict) : Bool :=
  p.barcode.isSome || p.title.isSome || p.brand.isSome ||
  p.description.isSome || p.ingredients.isSome || p.category.isSome

/-- The result dictionary returned by `check_product_safety` (lines 167-174). -/
structure SafetyReport where
  is_safe : Bool
  conflicting_allergies : List String
  conflicting_conditions : List String
  product_name : String
  product_brand : String
  product_ingredients : String
deriving DecidableEq

/-- Lines 142-151: `[a.strip().lower() for a in s.split(",") if a.strip()]`. -/
def normalize_tokens (s : String) : List String :=
  ((pySplitComma s).filter (fun a => pyTruthy (pyStrip a))).map
    (fun a => pyLower (pyStrip a))

/-- The `try` body of `check_product_safety` (lines 140-174), reached when
both inputs are truthy. -/
def reportFor (p : ProductDict) (u : User) : SafetyReport :=
  let user_allergies := normalize_tokens u.allergies
  let user_conditions := normalize_tokens u.health_conditions
  let ingredients_lower := pyLower (pyGet p.ingredients "")
  let conflicting_allergies :=
    user_allergies.filter (fun allergy => pyTruthy allergy && pyIn allergy ingredients_lower)
  let conflicting_conditions :=
    user_conditions.filter (fun condition => pyTruthy condition && pyIn condition ingredients_lower)
  { is_safe := !(!conflicting_allergies.isEmpty || !conflicting_conditions.isEmpty)
    conflicting_allergies := conflicting_allergies
    conflicting_conditions := conflicting_conditions
    product_name := pyGet p.title "Unknown"
    product_brand := pyGet p.brand "Unknown"
    product_ingredients := pyGet p.ingredients "" }

/-- The function `check_product_safety` (lines 128-177) with its observable effects made
explicit: the result is the returned dictionary, followed by the post-call
values of `product_info` and `user` (the body never assigns to either), and
the UI message log (`st.error` appends a message). -/
def check_product_safety_run (product_info : Option ProductDict) (user : Option User)
    (ui : List String) :
    Option SafetyReport × Option ProductDict × Option User × List String :=
  match product_info with
  | none => (none, product_info, user, ui ++ ["Product information is required"])
  | some p =>
    if dictTruthy p = false then
      (none, product_info, user, ui ++ ["Product information is required"])
    else
      match user with
      | none => (none, product_info, user, ui ++ ["User information is required"])
      | some u => (some (reportFor p u), product_info, user, ui)

/-- The value returned by `check_product_safety` (`None` = no verdict). -/
def check_product_safety (product_info : Option ProductDict) (user : Option User) :
    Option SafetyReport :=
  (check_product_safety_run product_info user []).1

/-- A JSON field value in the upstream OpenFoodFacts product record:
either JSON `null` or a string. -/
inductive JVal where
  | null : JVal
  | str : String → JVal
deriving DecidableEq

/-- The upstream product record (`data["product"]`); `none` models an
absent key, `some .null` a key present with JSON `null`. -/
structure OFFProduct where
  product_name : Option JVal
  brands : Option JVal
  generic_name : Option JVal
  ingredients_text : Option JVal
  categories : Option JVal
deriving DecidableEq

/-- A Python value that is either `None` or a string. -/
inductive PyStr where
  | pyNone : PyStr
  | str : String → PyStr
deriving DecidableEq

/-- Model of Python `product.get(key, default)` on the upstream JSON record:
an absent key yields the default string, a present key yields its value
(`None` for JSON null). -/
def jsonGet (v : Option JVal) (default : String) : PyStr :=
  match v with
  | none => .str default
  | some .null => .pyNone
  | some (.str s) => .str s

/-- Model of Python `x or ""` on a string-or-None value. -/
def pyOrEmpty (v : PyStr) : String :=
  match v with
  | .pyNone => ""
  | .str s => s

/-- The dictionary built by `get_product_from_openfoodfacts` (lines 113-120). -/
structure LookupResult where
  barcode : String
  title : PyStr
  brand : PyStr
  description : PyStr
  ingredients : String
  category : PyStr
deriving DecidableEq

/-- The function `get_product_from_openfoodfacts` (lines 94-126), given the parsed JSON
`data["product"]` of a successful response (`none` when that key is falsy;
the network/exception paths also return `None` and are not modelled). -/
def get_product_from_openfoodfacts (barcode : String)
    (data_product : Option OFFProduct) : Option LookupResult :=
  if barcode = "" then none
  else
    match data_product with
    | none => none
    | some product =>
      some { barcode := barcode
             title := jsonGet product.product_name "No product title found"
             brand := jsonGet product.brands "Unknown brand"
             description := jsonGet product.generic_name "No description available"
             ingredients := pyOrEmpty (jsonGet product.ingredients_text "")
             category := jsonGet product.categories "Unknown category" }

/-! ### Basic lemmas about the Python string models -/

theorem pyTruthy_eq_true_iff (s : String) : pyTruthy s = true ↔ s ≠ "" := by
  simp [pyTruthy, bne_iff_ne]

theorem data_ne_nil_of_ne_empty {s : String} (h : s ≠ "") : s.data ≠ [] := by
  intro hd
  apply h
  cases s with
  | mk d => cases hd; rfl

theorem isPre_eq_true_iff (n h : List Char) : isPre n h = true ↔ ∃ t, h = n ++ t := by
  induction n generalizing h with
  | nil => simp [isPre]
  | cons a as ih =>
    cases h with
    | nil => simp [isPre]
    | cons b bs =>
      simp only [isPre, Bool.and_eq_true, beq_iff_eq, ih, List.cons_append, List.cons.injEq]
      constructor
      · rintro ⟨rfl, t, rfl⟩
        exact ⟨t, rfl, rfl⟩
      · rintro ⟨t, rfl, rfl⟩
        exact ⟨rfl, t, rfl⟩

theorem hasInfix_eq_true_iff (n h : List Char) :
    hasInfix n h = true ↔ ∃ pre post, h = pre ++ n ++ post := by
  induction h with
  | nil =>
    simp only [hasInfix, isPre_eq_true_iff]
    constructor
    · rintro ⟨t, ht⟩
      exact ⟨[], t, by simpa using ht⟩
    · rintro ⟨pre, post, hp⟩
      refine ⟨post, ?_⟩
      rcases List.append_eq_nil.mp hp.symm with ⟨h1, h2⟩
      rcases List.append_eq_nil.mp h1 with ⟨rfl, rfl⟩
      simp [h2]
  | cons a t ih =>
    simp only [hasInfix, Bool.or_eq_true, isPre_eq_true_iff, ih]
    constructor
    · rintro (⟨s, hs⟩ | ⟨pre, post, hp⟩)
      · exact ⟨[], s, by simpa using hs⟩
      · exact ⟨a :: pre, post, by simp [hp]⟩
    · rintro ⟨pre, post, hp⟩
      cases pre with
      | nil => exact Or.inl ⟨post, by simpa using hp⟩
      | cons x xs =>
        simp only [List.cons_append, List.cons.injEq] at hp
        exact Or.inr ⟨xs, post, hp.2⟩

theorem pyIn_eq_true_iff (needle hay : String) :
    pyIn needle hay = true ↔ ∃ pre post, hay.data = pre ++ needle.data ++ post := by
  simp [pyIn, hasInfix_eq_true_iff]

theorem pyIn_empty_hay {s : String} (h : s ≠ "") : pyIn s "" = false := by
  rw [Bool.eq_false_iff]
  intro hc
  rcases (pyIn_eq_true_iff s "").mp hc with ⟨pre, post, hp⟩
  have : s.data = [] := by
    have h0 : ("" : String).data = [] := rfl
    rw [h0] at hp
    rcases List.append_eq_nil.mp hp.symm with ⟨h1, _⟩
    exact (List.append_eq_nil.mp h1).2
  exact data_ne_nil_of_ne_empty h this

/-! ### Unfolding lemmas for the engine -/

theorem reportFor_conflicting_allergies (p : ProductDict) (u : User) :
    (reportFor p u).conflicting_allergies =
      (normalize_tokens u.allergies).filter
        (fun a => pyTruthy a && pyIn a (pyLower (pyGet p.ingredients ""))) := rfl

theorem reportFor_conflicting_conditions (p : ProductDict) (u : User) :
    (reportFor p u).conflicting_conditions =
      (normalize_tokens u.health_conditions).filter
        (fun a => pyTruthy a && pyIn a (pyLower (pyGet p.ingredients ""))) := rfl

theorem reportFor_is_safe (p : ProductDict) (u : User) :
    (reportFor p u).is_safe =
      !(!(reportFor p u).conflicting_allergies.isEmpty ||
        !(reportFor p u).conflicting_conditions.isEmpty) := rfl

theorem check_eq_some_iff (p : ProductDict) (u : User) (r : SafetyReport) :
    check_product_safety (some p) (some u) = some r ↔
      dictTruthy p = true ∧ r = reportFor p u := by
  by_cases hp : dictTruthy p = true
  · simp [check_product_safety, check_product_safety_run, hp, eq_comm]
  · have hp' : dictTruthy p = false := by revert hp; cases dictTruthy p <;> simp
    simp [check_product_safety, check_product_safety_run, hp', hp]

theorem reportFor_product_name (p : ProductDict) (u : User) :
    (reportFor p u).product_name = pyGet p.title "Unknown" := rfl

theorem reportFor_product_brand (p : ProductDict) (u : User) :
    (reportFor p u).product_brand = pyGet p.brand "Unknown" := rfl

theorem reportFor_product_ingredients (p : ProductDict) (u : User) :
    (reportFor p u).product_ingredients = pyGet p.ingredients "" := rfl

theorem run_state_eq (po : Option ProductDict) (uo : Option User) (ui : List String) :
    (check_product_safety_run po uo ui).2.1 = po ∧
      (check_product_safety_run po uo ui).2.2.1 = uo := by
  cases po with
  | none => exact ⟨rfl, rfl⟩
  | some p =>
    by_cases hp : dictTruthy p = false
    · simp [check_product_safety_run, hp]
    · cases uo with
      | none => simp [check_product_safety_run, hp]
      | some u => simp [check_product_safety_run, hp]

theorem run_fst_eq (po : Option ProductDict) (uo : Option User) (ui : List String) :
    (check_product_safety_run po uo ui).1 = check_product_safety po uo := by
  unfold check_product_safety
  cases po with
  | none => rfl
  | some p =>
    by_cases hp : dictTruthy p = false
    · simp [check_product_safety_run, hp]
    · cases uo with
      | none => simp [check_product_safety_run, hp]
      | some u => simp [check_product_safety_run, hp]

/-! ### Claim theorems -/

/-- C1: for every product dictionary and user accepted by the safety check,
the verdict's `is_safe` field is true iff both `conflicting_allergies` and
`conflicting_conditions` are empty. -/
theorem isSafe_iff_no_conflicts (p : ProductDict) (u : User) (r : SafetyReport)
    (h : check_product_safety (some p) (some u) = some r) :
    r.is_safe = true ↔
      (r.conflicting_allergies = [] ∧ r.conflicting_conditions = []) := by
  obtain ⟨hp, rfl⟩ := (check_eq_some_iff p u r).mp h
  rw [reportFor_is_safe]
  simp [List.isEmpty_iff]

theorem isSafe_iff_no_conflicts_witness :
    (false = true ↔ ((["egg"] : List String) = [] ∧ ([] : List String) = [])) :=
  isSafe_iff_no_conflicts
    ⟨some "1", some "T", some "B", some "D", some "egg yolk, milk", some "C"⟩
    ⟨"Egg, Fish", "Diabetes"⟩
    { is_safe := false, conflicting_allergies := ["egg"], conflicting_conditions := []
      product_name := "T", product_brand := "B", product_ingredients := "egg yolk, milk" }
    rfl

/-- C2: a normalized (trimmed, non-empty, lower-cased) allergy token appears
in `conflicting_allergies` iff it occurs as a contiguous substring of the
lower-cased ingredient text; likewise for condition tokens and
`conflicting_conditions`. -/
theorem conflict_mem_iff_substring (p : ProductDict) (u : User) (r : SafetyReport)
    (h : check_product_safety (some p) (some u) = some r) :
    (∀ t, t ∈ normalize_tokens u.allergies → t ≠ "" →
      (t ∈ r.conflicting_allergies ↔
        ∃ pre post, (pyLower (pyGet p.ingredients "")).data = pre ++ t.data ++ post)) ∧
    (∀ t, t ∈ normalize_tokens u.health_conditions → t ≠ "" →
      (t ∈ r.conflicting_conditions ↔
        ∃ pre post, (pyLower (pyGet p.ingredients "")).data = pre ++ t.data ++ post)) := by
  obtain ⟨hp, rfl⟩ := (check_eq_some_iff p u r).mp h
  constructor
  · intro t ht hne
    rw [reportFor_conflicting_allergies, List.mem_filter, ← pyIn_eq_true_iff]
    simp [ht, pyTruthy_eq_true_iff, hne]
  · intro t ht hne
    rw [reportFor_conflicting_conditions, List.mem_filter, ← pyIn_eq_true_iff]
    simp [ht, pyTruthy_eq_true_iff, hne]

theorem conflict_mem_iff_substring_witness :
    (∀ t, t ∈ normalize_tokens "Egg, Fish" → t ≠ "" →
      (t ∈ (["egg"] : List String) ↔
        ∃ pre post, (pyLower (pyGet (some "egg yolk, milk") "")).data = pre ++ t.data ++ post)) ∧
    (∀ t, t ∈ normalize_tokens "Diabetes" → t ≠ "" →
      (t ∈ ([] : List String) ↔
        ∃ pre post, (pyLower (pyGet (some "egg yolk, milk") "")).data = pre ++ t.data ++ post)) :=
  conflict_mem_iff_substring
    ⟨some "1", some "T", some "B", some "D", some "egg yolk, milk", some "C"⟩
    ⟨"Egg, Fish", "Diabetes"⟩
    { is_safe := false, conflicting_allergies := ["egg"], conflicting_conditions := []
      product_name := "T", product_brand := "B", product_ingredients := "egg yolk, milk" }
    rfl

/-- C3: the conflict lists are sublists of the normalized token lists, so
their tokens appear in the first-seen order of the user's comma-separated
allergy (resp. condition) string; moreover each conflict list is exactly a
filter of the normalized token list, so ingredient-text positions play no
role in the ordering. -/
theorem conflict_order_follows_profile (p : ProductDict) (u : User) (r : SafetyReport)
    (h : check_product_safety (some p) (some u) = some r) :
    r.conflicting_allergies.Sublist (normalize_tokens u.allergies) ∧
    r.conflicting_conditions.Sublist (normalize_tokens u.health_conditions) ∧
    r.conflicting_allergies =
      (normalize_tokens u.allergies).filter
        (fun a => pyTruthy a && pyIn a (pyLower (pyGet p.ingredients ""))) ∧
    r.conflicting_conditions =
      (normalize_tokens u.health_conditions).filter
        (fun a => pyTruthy a && pyIn a (pyLower (pyGet p.ingredients ""))) := by
  obtain ⟨hp, rfl⟩ := (check_eq_some_iff p u r).mp h
  refine ⟨?_, ?_, reportFor_conflicting_allergies p u, reportFor_conflicting_conditions p u⟩
  · rw [reportFor_conflicting_allergies]
    exact List.filter_sublist _
  · rw [reportFor_conflicting_conditions]
    exact List.filter_sublist _

theorem conflict_order_follows_profile_witness :
    (["milk", "egg"] : List String).Sublist (normalize_tokens "Milk, Egg") ∧
    ([] : List String).Sublist (normalize_tokens "") ∧
    (["milk", "egg"] : List String) =
      (normalize_tokens "Milk, Egg").filter
        (fun a => pyTruthy a && pyIn a (pyLower (pyGet (some "egg and milk") ""))) ∧
    ([] : List String) =
      (normalize_tokens "").filter
        (fun a => pyTruthy a && pyIn a (pyLower (pyGet (some "egg and milk") ""))) :=
  conflict_order_follows_profile
    ⟨some "1", some "T", some "B", some "D", some "egg and milk", some "C"⟩
    ⟨"Milk, Egg", ""⟩
    { is_safe := false, conflicting_allergies := ["milk", "egg"], conflicting_conditions := []
      product_name := "T", product_brand := "B", product_ingredients := "egg and milk" }
    rfl

/-- C4: an absent (`None`) product or user makes the check fail with no
verdict (the `InvalidInput` path); when both are present (and the product
dictionary is truthy, as every product record with its keys set is) the
check always returns a verdict, and a missing or empty ingredient string
simply yields no matches and a safe verdict. -/
theorem missing_input_guard (po : Option ProductDict) (uo : Option User) :
    (po = none → check_product_safety po uo = none) ∧
    (uo = none → check_product_safety po uo = none) ∧
    (∀ p u, po = some p → uo = some u → dictTruthy p = true →
      ∃ r, check_product_safety po uo = some r ∧
        ((p.ingredients = none ∨ p.ingredients = some "") →
          r.conflicting_allergies = [] ∧ r.conflicting_conditions = [] ∧
            r.is_safe = true)) := by
  refine ⟨?_, ?_, ?_⟩
  · rintro rfl
    rfl
  · rintro rfl
    cases po with
    | none => rfl
    | some p =>
      by_cases hp : dictTruthy p = false
      · simp [check_product_safety, check_product_safety_run, hp]
      · simp [check_product_safety, check_product_safety_run, hp]
  · rintro p u rfl rfl hp
    refine ⟨reportFor p u, (check_eq_some_iff p u _).mpr ⟨hp, rfl⟩, ?_⟩
    intro hi
    have hget : pyGet p.ingredients "" = "" := by
      rcases hi with h | h <;> simp [pyGet, h]
    have hlow : pyLower (pyGet p.ingredients "") = "" := by
      rw [hget]
      rfl
    have hfilter : ∀ (s : String),
        (normalize_tokens s).filter
          (fun a => pyTruthy a && pyIn a (pyLower (pyGet p.ingredients ""))) = [] := by
      intro s
      rw [hlow, List.filter_eq_nil_iff]
      intro a _
      by_cases hae : a = ""
      · simp [pyTruthy, hae]
      · simp [pyIn_empty_hay hae]
    refine ⟨?_, ?_, ?_⟩
    · rw [reportFor_conflicting_allergies]
      exact hfilter _
    · rw [reportFor_conflicting_conditions]
      exact hfilter _
    · rw [reportFor_is_safe, reportFor_conflicting_allergies,
        reportFor_conflicting_conditions, hfilter, hfilter]
      rfl

theorem missing_input_guard_witness :
    ∃ r, check_product_safety
        (some ⟨some "1", some "T", some "B", some "D", none, some "C"⟩)
        (some ⟨"Peanut, Gluten", "Diabetes"⟩) = some r ∧
      r.conflicting_allergies = [] ∧ r.conflicting_conditions = [] ∧
        r.is_safe = true := by
  obtain ⟨r, hr, himp⟩ :=
    (missing_input_guard
        (some ⟨some "1", some "T", some "B", some "D", none, some "C"⟩)
        (some ⟨"Peanut, Gluten", "Diabetes"⟩)).2.2
      ⟨some "1", some "T", some "B", some "D", none, some "C"⟩
      ⟨"Peanut, Gluten", "Diabetes"⟩ rfl rfl rfl
  exact ⟨r, hr, himp (Or.inl rfl)⟩

/-- C5 counterexample: for the user allergy string "Egg" and ingredients
"egg yolk", the reported conflict token is the lower-cased "egg"; the
original trimmed, non-lower-cased token "Egg" is not reported, refuting the
claim that the original form is preserved and reported. -/
theorem reported_token_not_original_case :
    check_product_safety
        (some ⟨some "2", some "T", some "B", some "D", some "egg yolk", some "C"⟩)
        (some ⟨"Egg", ""⟩) =
      some { is_safe := false, conflicting_allergies := ["egg"]
             conflicting_conditions := [], product_name := "T", product_brand := "B"
             product_ingredients := "egg yolk" } ∧
    "Egg" ∉ (["egg"] : List String) :=
  ⟨rfl, by decide⟩

/-- C5 amended: the normalizer lower-cases each surviving comma-separated
piece, and the lower-cased form is both what is matched and what is
reported back in the conflict lists; every reported token is the
lower-cased trimmed form of some piece of the user's string. -/
theorem reported_tokens_are_lowercased_normalized (p : ProductDict) (u : User)
    (r : SafetyReport) (h : check_product_safety (some p) (some u) = some r) :
    (∀ t ∈ r.conflicting_allergies,
      ∃ a ∈ pySplitComma u.allergies, pyStrip a ≠ "" ∧ t = pyLower (pyStrip a)) ∧
    (∀ t ∈ r.conflicting_conditions,
      ∃ a ∈ pySplitComma u.health_conditions,
        pyStrip a ≠ "" ∧ t = pyLower (pyStrip a)) := by
  obtain ⟨hp, rfl⟩ := (check_eq_some_iff p u r).mp h
  constructor
  · intro t ht
    rw [reportFor_conflicting_allergies] at ht
    have hmem := (List.mem_filter.mp ht).1
    simp only [normalize_tokens, List.mem_map, List.mem_filter,
      pyTruthy_eq_true_iff] at hmem
    obtain ⟨a, ⟨hmem', hne⟩, rfl⟩ := hmem
    exact ⟨a, hmem', hne, rfl⟩
  · intro t ht
    rw [reportFor_conflicting_conditions] at ht
    have hmem := (List.mem_filter.mp ht).1
    simp only [normalize_tokens, List.mem_map, List.mem_filter,
      pyTruthy_eq_true_iff] at hmem
    obtain ⟨a, ⟨hmem', hne⟩, rfl⟩ := hmem
    exact ⟨a, hmem', hne, rfl⟩

theorem reported_tokens_are_lowercased_normalized_witness :
    (∀ t ∈ (["egg"] : List String),
      ∃ a ∈ pySplitComma "Egg", pyStrip a ≠ "" ∧ t = pyLower (pyStrip a)) ∧
    (∀ t ∈ ([] : List String),
      ∃ a ∈ pySplitComma "", pyStrip a ≠ "" ∧ t = pyLower (pyStrip a)) :=
  reported_tokens_are_lowercased_normalized
    ⟨some "2", some "T", some "B", some "D", some "egg yolk", some "C"⟩
    ⟨"Egg", ""⟩
    { is_safe := false, conflicting_allergies := ["egg"], conflicting_conditions := []
      product_name := "T", product_brand := "B", product_ingredients := "egg yolk" }
    rfl

/-- C6: a user whose allergy and condition strings both normalize to no
tokens gets a safe verdict with both conflict lists empty, for every
(truthy) product dictionary. -/
theorem empty_profile_always_safe (p : ProductDict) (u : User)
    (ha : normalize_tokens u.allergies = [])
    (hc : normalize_tokens u.health_conditions = [])
    (hp : dictTruthy p = true) :
    ∃ r, check_product_safety (some p) (some u) = some r ∧
      r.is_safe = true ∧ r.conflicting_allergies = [] ∧
        r.conflicting_conditions = [] := by
  refine ⟨reportFor p u, (check_eq_some_iff p u _).mpr ⟨hp, rfl⟩, ?_, ?_, ?_⟩
  · rw [reportFor_is_safe, reportFor_conflicting_allergies,
      reportFor_conflicting_conditions, ha, hc]
    rfl
  · rw [reportFor_conflicting_allergies, ha]
    rfl
  · rw [reportFor_conflicting_conditions, hc]
    rfl

theorem empty_profile_always_safe_witness :
    ∃ r, check_product_safety
        (some ⟨some "3", some "T", some "B", some "D", some "peanut oil, milk", some "C"⟩)
        (some ⟨" , ,", "   "⟩) = some r ∧
      r.is_safe = true ∧ r.conflicting_allergies = [] ∧
        r.conflicting_conditions = [] :=
  empty_profile_always_safe
    ⟨some "3", some "T", some "B", some "D", some "peanut oil, milk", some "C"⟩
    ⟨" , ,", "   "⟩ rfl rfl rfl

/-- C7: scenario D — allergy string "egg" against ingredients
"eggplant extract" yields `conflicting_allergies = ["egg"]` and an unsafe
verdict: matching is naive contiguous-substring containment, not
whole-word matching. -/
theorem naive_substring_eggplant :
    ∃ r, check_product_safety
        (some ⟨some "4", some "Eggplant snack", some "BrandX", some "Desc",
               some "eggplant extract", some "Vegetables"⟩)
        (some ⟨"egg", ""⟩) = some r ∧
      r.conflicting_allergies = ["egg"] ∧ r.is_safe = false :=
  ⟨_, rfl, rfl, rfl⟩

/-- C8: for every upstream product record, the lookup fills each absent
field with its documented placeholder, carries every present string field
through unmodified, and the ingredients field is always a string (its type),
equal to "" when the upstream value is absent or JSON null. -/
theorem lookup_fills_missing_fields (barcode : String) (product : OFFProduct)
    (hb : barcode ≠ "") :
    ∃ r, get_product_from_openfoodfacts barcode (some product) = some r ∧
      (product.product_name = none → r.title = .str "No product title found") ∧
      (∀ s, product.product_name = some (.str s) → r.title = .str s) ∧
      (product.brands = none → r.brand = .str "Unknown brand") ∧
      (∀ s, product.brands = some (.str s) → r.brand = .str s) ∧
      (product.generic_name = none → r.description = .str "No description available") ∧
      (∀ s, product.generic_name = some (.str s) → r.description = .str s) ∧
      (product.categories = none → r.category = .str "Unknown category") ∧
      (∀ s, product.categories = some (.str s) → r.category = .str s) ∧
      ((product.ingredients_text = none ∨ product.ingredients_text = some .null) →
        r.ingredients = "") ∧
      (∀ s, product.ingredients_text = some (.str s) → r.ingredients = s) := by
  refine ⟨{ barcode := barcode
            title := jsonGet product.product_name "No product title found"
            brand := jsonGet product.brands "Unknown brand"
            description := jsonGet product.generic_name "No description available"
            ingredients := pyOrEmpty (jsonGet product.ingredients_text "")
            category := jsonGet product.categories "Unknown category" },
    ?_, ?_, ?_, ?_, ?_, ?_, ?_, ?_, ?_, ?_, ?_⟩
  · simp [get_product_from_openfoodfacts, hb]
  · intro h
    simp [jsonGet, h]
  · intro s h
    simp [jsonGet, h]
  · intro h
    simp [jsonGet, h]
  · intro s h
    simp [jsonGet, h]
  · intro h
    simp [jsonGet, h]
  · intro s h
    simp [jsonGet, h]
  · intro h
    simp [jsonGet, h]
  · intro s h
    simp [jsonGet, h]
  · rintro (h | h) <;> simp [jsonGet, pyOrEmpty, h]
  · intro s h
    simp [jsonGet, pyOrEmpty, h]

theorem lookup_fills_missing_fields_witness :
    ∃ r, get_product_from_openfoodfacts "123"
        (some ⟨none, some (.str "Acme"), some .null, none, some (.str "Snacks")⟩) =
        some r ∧
      ((none : Option JVal) = none → r.title = .str "No product title found") ∧
      (∀ s, (none : Option JVal) = some (.str s) → r.title = .str s) ∧
      ((some (.str "Acme") : Option JVal) = none → r.brand = .str "Unknown brand") ∧
      (∀ s, (some (.str "Acme") : Option JVal) = some (.str s) → r.brand = .str s) ∧
      ((some .null : Option JVal) = none →
        r.description = .str "No description available") ∧
      (∀ s, (some .null : Option JVal) = some (.str s) → r.description = .str s) ∧
      ((some (.str "Snacks") : Option JVal) = none →
        r.category = .str "Unknown category") ∧
      (∀ s, (some (.str "Snacks") : Option JVal) = some (.str s) → r.category = .str s) ∧
      (((none : Option JVal) = none ∨ (none : Option JVal) = some .null) →
        r.ingredients = "") ∧
      (∀ s, (none : Option JVal) = some (.str s) → r.ingredients = s) :=
  lookup_fills_missing_fields "123"
    ⟨none, some (.str "Acme"), some .null, none, some (.str "Snacks")⟩
    (by decide)

/-- C9: the engine is a deterministic pure function of its two inputs: the
verdict does not depend on the ambient UI message log, and invoking the
engine a second time on the state left by a first invocation yields a
structurally equal verdict. -/
theorem engine_deterministic (po : Option ProductDict) (uo : Option User)
    (ui : List String) :
    (check_product_safety_run po uo ui).1 = check_product_safety po uo ∧
    (check_product_safety_run (check_product_safety_run po uo ui).2.1
        (check_product_safety_run po uo ui).2.2.1
        (check_product_safety_run po uo ui).2.2.2).1 =
      (check_product_safety_run po uo ui).1 := by
  refine ⟨run_fst_eq po uo ui, ?_⟩
  obtain ⟨h1, h2⟩ := run_state_eq po uo ui
  rw [h1, h2, run_fst_eq, run_fst_eq]

/-- C10: the safety check never mutates its inputs — the post-call product
dictionary and user record are the ones passed in, so the user's
`allergies` and `health_conditions` strings and every product field are
unchanged — and the verdict's `product_name`, `product_brand` and
`product_ingredients` are copied from the input product dictionary
(verbatim whenever the corresponding key is present). -/
theorem engine_frame_no_mutation (po : Option ProductDict) (uo : Option User)
    (ui : List String) :
    (check_product_safety_run po uo ui).2.1 = po ∧
    (check_product_safety_run po uo ui).2.2.1 = uo ∧
    (∀ p u r, po = some p → uo = some u →
      (check_product_safety_run po uo ui).1 = some r →
      ((∀ s, p.title = some s → r.product_name = s) ∧
       (∀ s, p.brand = some s → r.product_brand = s) ∧
       r.product_ingredients = pyGet p.ingredients "")) := by
  obtain ⟨h1, h2⟩ := run_state_eq po uo ui
  refine ⟨h1, h2, ?_⟩
  rintro p u r rfl rfl hr
  rw [run_fst_eq] at hr
  obtain ⟨hp, rfl⟩ := (check_eq_some_iff p u r).mp hr
  refine ⟨?_, ?_, reportFor_product_ingredients p u⟩
  · intro s hs
    rw [reportFor_product_name, hs]
    rfl
  · intro s hs
    rw [reportFor_product_brand, hs]
    rfl

theorem engine_frame_no_mutation_witness :
    (∀ s, (some "T" : Option String) = some s → "T" = s) ∧
    (∀ s, (some "B" : Option String) = some s → "B" = s) ∧
    ("egg yolk" : String) = pyGet (some "egg yolk") "" :=
  (engine_frame_no_mutation
      (some ⟨some "1", some "T", some "B", some "D", some "egg yolk", some "C"⟩)
      (some ⟨"Egg", ""⟩) []).2.2
    ⟨some "1", some "T", some "B", some "D", some "egg yolk", some "C"⟩
    ⟨"Egg", ""⟩
    { is_safe := false, conflicting_allergies := ["egg"], conflicting_conditions := []
      product_name := "T", product_brand := "B", product_ingredients := "egg yolk" }
    rfl rfl rfl

end SafeChoice

section Examples
open SafeChoice
example : pyStrip " Egg " = "Egg" := rfl
example : pySplitComma "Egg,  Milk ,," = ["Egg", "  Milk ", "", ""] := rfl
example : pySplitComma "" = [""] := rfl
example : pyLower "EggPlant" = "eggplant" := rfl
example : pyIn "egg" "eggplant extract" = true := rfl
example : pyIn "milk" "eggplant extract" = false := rfl
example : pyIn "" "anything" = true := rfl
example : normalize_tokens " Peanut, Gluten ,, " = ["peanut", "gluten"] := rfl
example :
    check_product_safety
      (some ⟨some "1", some "T", some "B", some "D", some "eggplant extract", some "C"⟩)
      (some ⟨"egg", ""⟩) =
    some { is_safe := false, conflicting_allergies := ["egg"], conflicting_conditions := []
           product_name := "T", product_brand := "B"
           product_ingredients := "eggplant extract" } := rfl
end Examples
